import Mathlib

/-!
Verification of the click-to-call desktop utility (`src/main.rs`) against its
natural-language specification.

Strings are modelled as `List Char` (`Str`); Rust `String` values in the source
become `Str` values here.  Every definition below is a shallow embedding of a
function or code path of `src/main.rs`; the line numbers in the doc comments
refer to that file.  External effects (Unix-socket connect/write results,
process spawning, the HTTP transport, the preferences file) are modelled as
explicit environment records, and each code path is embedded as a pure function
from those environments to a record of its observable actions (bytes written to
the socket, HTTP GET issued or not, UI shown or not, exit code).
-/

namespace ClickToCall

/-- Strings of the Rust program, modelled as lists of characters. -/
abbrev Str := List Char

/-- Embed a Lean string literal as a `Str`. -/
def str (s : String) : Str := s.data

/-! ## Data model: `AppState` (main.rs lines 80-90)

`phone_number` and `status_message` carry `#[serde(skip)]`, so they are
omitted on serialization and filled with `Default::default()` (the empty
string) on deserialization. -/

/-- The Rust `AppState` struct (main.rs lines 80-90). -/
structure AppState where
  domain : Str
  extension : Str
  key : Str
  auto_answer : Bool
  phone_number : Str
  status_message : Str
deriving DecidableEq, Repr

/-- `AppState::default()`: every string field empty, `auto_answer` false. -/
def defaultAppState : AppState :=
  { domain := [], extension := [], key := [], auto_answer := false
    phone_number := [], status_message := [] }

/-! ## Phone-number normalization (main.rs lines 292-300, 356-364, 494-502) -/

/-- Rust `s.replace(&c.to_string(), "")` for a single-character pattern:
removes every occurrence of `c`, leaving all other characters unchanged. -/
def removeChar (c : Char) (s : Str) : Str := s.filter (fun x => !(x == c))

/-- The cleaning chain applied to a raw number in all three call paths
(main.rs lines 296-300, 360-364, 498-502):
`.replace("-", "").replace(" ", "").replace("(", "").replace(")", "")`. -/
def cleanNumber (raw : Str) : Str :=
  removeChar ')' (removeChar '(' (removeChar ' ' (removeChar '-' raw)))

/-- Rust `message.split_at(4).1`: the text after the 4-byte `tel:` head
(main.rs lines 292, 356, 494). -/
def telRemainder (message : Str) : Str := message.drop 4

/-! ## URL construction (main.rs lines 196-211 and 412-427)

Both `MAKE_CALL` and `make_direct_call` build the URL with the same format
string.  The positional arguments of that format string are, in order:
`domain_with_scheme, phone_number, phone_number, phone_number, phone_number,
extension, phone_number, auto_answer_str, key` — so the `src=` placeholder
receives the extension and the `dest=` placeholder receives the phone number.
The definition below keeps that exact interleaving, written right-nested. -/

/-- `if auto_answer { "true" } else { "false" }` (main.rs lines 198, 414). -/
def boolStr (b : Bool) : Str := if b then str "true" else str "false"

/-- `domain_with_scheme` (main.rs lines 201-205, 417-421): prefix `https://`
unless the domain already starts with `http://` or `https://`. -/
def domainWithScheme (domain : Str) : Str :=
  if (str "http://").isPrefixOf domain || (str "https://").isPrefixOf domain then domain
  else str "https://" ++ domain

/-- `url_str` (main.rs lines 208-211 and 424-427): the format string with its
arguments substituted in source order. -/
def buildCallUrl (domain extension key phone_number : Str) (auto_answer : Bool) : Str :=
  domainWithScheme domain ++
  (str "/app/click_to_call/click_to_call.php?src_cid_name=" ++
  (phone_number ++ (str "&src_cid_number=" ++ (phone_number ++ (str "&dest_cid_name=" ++
  (phone_number ++ (str "&dest_cid_number=" ++ (phone_number ++ (str "&src=" ++
  (extension ++ (str "&dest=" ++ (phone_number ++ (str "&auto_answer=" ++
  (boolStr auto_answer ++ (str "&rec=&ringback=us-ring&key=" ++ key)))))))))))))))

/-- `make_direct_call` (main.rs lines 402-447) unconditionally issues one HTTP
GET; this embedding returns the URL of that GET. -/
def make_direct_call (domain extension key phone_number : Str) (auto_answer : Bool) : Str :=
  buildCallUrl domain extension key phone_number auto_answer

/-! ## The `MAKE_CALL` command handler (main.rs lines 175-243) -/

/-- Observable effect of one `MAKE_CALL` command: the HTTP GET issued (if any)
and the updated application state. -/
structure MakeCallResult where
  httpRequest : Option Str
  state : AppState
deriving DecidableEq, Repr

/-- The `MAKE_CALL` branch of `Delegate::command` (main.rs lines 175-243):
reject with an error status when domain, extension or phone number is empty,
otherwise set the progress status and dispatch the GET on a worker thread. -/
def makeCallCmd (data : AppState) : MakeCallResult :=
  if data.domain.isEmpty || data.extension.isEmpty || data.phone_number.isEmpty then
    { httpRequest := none
      state := { data with
        status_message := str "Error: Missing domain, extension or phone number" } }
  else
    { httpRequest := some (buildCallUrl data.domain data.extension data.key
        data.phone_number data.auto_answer)
      state := { data with
        status_message := str "Initiating call to " ++ data.phone_number ++ str "..." } }

/-! ## HTTP result handling (main.rs lines 214-241)

`reqwest::StatusCode::is_success()` holds exactly for codes 200-299.  The
Rust code formats the status with `Display`; this embedding renders the
decimal code digits (the reason phrase appended by `reqwest` is dropped, and
plays no role in any claim). -/

/-- Outcome of the blocking `Client::new().get(url).send()` call. -/
inductive HttpResult where
  | response (status : Nat)
  | transportError (message : Str)
deriving DecidableEq, Repr

/-- `reqwest::StatusCode::is_success()`: status in `200..=299`. -/
def statusIsSuccess (status : Nat) : Bool := 200 ≤ status && status < 300

/-- Decimal rendering of a status code. -/
def natDigits (n : Nat) : Str := Nat.toDigits 10 n

/-- Classification of a dispatch outcome, following the spec taxonomy. -/
inductive CallOutcome where
  | success
  | httpError (status : Nat)
  | networkError (message : Str)
deriving DecidableEq, Repr

/-- The three-way branch of main.rs lines 214-235 as an outcome. -/
def classifyResult : HttpResult → CallOutcome
  | .response status =>
      if statusIsSuccess status then .success else .httpError status
  | .transportError e => .networkError e

/-- The `result` string computed in main.rs lines 214-235. -/
def callResultMessage (phone_number : Str) : HttpResult → Str
  | .response status =>
      if statusIsSuccess status then str "Call initialized to " ++ phone_number
      else str "Error: HTTP status " ++ natDigits status
  | .transportError e => str "Error: " ++ e

/-- The idle callback of main.rs lines 239-241: deliver the result string into
the session state's `status_message`. -/
def applyCallResult (data : AppState) (result : Str) : AppState :=
  { data with status_message := result }

/-! ## The primary socket listener (main.rs lines 257-335) -/

/-- What the listener loop does with one accepted, decoded payload. -/
inductive ListenerAction where
  | discard
  | directCall (url : Str)
  | sendToUI (message : Str)
deriving DecidableEq, Repr

/-- The per-message body of the listener loop (main.rs lines 276-319), acting
on the `app_state` snapshot that the thread captured at start (line 259):
non-`tel:` payloads are discarded; a `tel:` payload is cleaned and dispatched
silently when domain and extension are configured, else the raw message is
submitted to the UI via `PROCESS_TEL_URL`. -/
def socketListenerHandle (snapshot : AppState) (message : Str) : ListenerAction :=
  if (str "tel:").isPrefixOf message then
    let raw_number := telRemainder message
    let clean_number := cleanNumber raw_number
    if !snapshot.domain.isEmpty && !snapshot.extension.isEmpty then
      .directCall (make_direct_call snapshot.domain snapshot.extension snapshot.key
        clean_number snapshot.auto_answer)
    else
      .sendToUI message
  else .discard

/-! ## Instance coordination (main.rs lines 469-472, 708-726) -/

/-- Environment for one run of `try_connect_to_primary`: whether the socket
path exists, and whether the `UnixStream::connect` and the ping
`write_all` would succeed.  Connecting to a Unix socket path that does not
exist always fails, which callers record as `connectOk = true → pathExists =
true`. -/
structure SocketEnv where
  pathExists : Bool
  connectOk : Bool
  writeOk : Bool
deriving DecidableEq, Repr

/-- Observable outcome of `try_connect_to_primary`: its boolean return value
and whether `fs::remove_file` was invoked on the socket path. -/
structure ProbeResult where
  isSecondary : Bool
  removedStale : Bool
deriving DecidableEq, Repr

/-- `try_connect_to_primary` (main.rs lines 708-726): if the path exists, try
to connect and write a `ping-<timestamp>` probe; success on both returns
`true`; any failure after the existence check removes the stale socket file
and returns `false`; a missing path returns `false` untouched. -/
def try_connect_to_primary (env : SocketEnv) : ProbeResult :=
  if env.pathExists then
    if env.connectOk then
      if env.writeOk then { isSecondary := true, removedStale := false }
      else { isSecondary := false, removedStale := true }
    else { isSecondary := false, removedStale := true }
  else { isSecondary := false, removedStale := false }

/-- The process role. -/
inductive Role where
  | primary
  | secondary
deriving DecidableEq, Repr

/-- `let is_primary = !try_connect_to_primary(&socket_path)` (main.rs line
472), read as a role. -/
def roleOf (env : SocketEnv) : Role :=
  if (try_connect_to_primary env).isSecondary then .secondary else .primary

/-! ## `main`: argument scanning, forwarding and fallback
(main.rs lines 469-602) -/

/-- `s.to_lowercase()` on the argument (main.rs line 489). -/
def toLowerStr (s : Str) : Str := s.map Char.toLower

/-- The argument scan of main.rs lines 483-509: the first argument whose
lowercasing starts with `tel:` yields the cleaned remainder of the original
argument (`tel_number`); later arguments are not examined. -/
def findTelArg : List Str → Option Str
  | [] => none
  | arg :: rest =>
      if (str "tel:").isPrefixOf (toLowerStr arg) then
        some (cleanNumber (telRemainder arg))
      else findTelArg rest

/-- Environment for the tail of `main`: outcomes of the first forwarding
connect/write (main.rs lines 520-527), whether `std::env::current_exe()`
succeeds (line 536), outcomes of the post-spawn retry (lines 548-554), and
the preferences loaded at line 561. -/
structure MainEnv where
  connect1Ok : Bool
  write1Ok : Bool
  currentExeOk : Bool
  connect2Ok : Bool
  write2Ok : Bool
  prefs : AppState
deriving DecidableEq, Repr

/-- Observable actions of one run of the `main` tail: bytes written to the
primary's socket (if any), whether a background instance was spawned, how
long the process slept waiting for it (ms), the URL of a silently issued
HTTP GET (if any), whether the interactive UI was shown, and the exit code. -/
structure MainResult where
  wrote : Option Str
  spawnedBackground : Bool
  waitedMs : Nat
  httpRequest : Option Str
  showedUI : Bool
  exitCode : Nat
deriving DecidableEq, Repr

/-- main.rs lines 560-572: process the tel number directly.  With domain and
extension configured, `make_direct_call` runs and the process returns `Ok(())`
without a window; otherwise the UI is shown. -/
def processTelFallthrough (prefs : AppState) (tel_number : Str)
    (spawned : Bool) (waited : Nat) : MainResult :=
  if !prefs.domain.isEmpty && !prefs.extension.isEmpty then
    { wrote := none, spawnedBackground := spawned, waitedMs := waited
      httpRequest := some (make_direct_call prefs.domain prefs.extension prefs.key
        tel_number prefs.auto_answer)
      showedUI := false, exitCode := 0 }
  else
    { wrote := none, spawnedBackground := spawned, waitedMs := waited
      httpRequest := none, showedUI := true, exitCode := 0 }

/-- main.rs lines 517-572, for a run whose arguments carried a `tel:` URL.
A secondary first tries to forward `format!("tel:{}", tel_number)`; if the
connect fails it spawns a background instance of itself (when the current
executable path is known), sleeps 1000 ms and retries the forward exactly
once; any remaining failure falls through to direct processing. -/
def mainTelFlow (isPrimary : Bool) (tel_number : Str) (env : MainEnv) : MainResult :=
  if isPrimary then processTelFallthrough env.prefs tel_number false 0
  else if env.connect1Ok then
    if env.write1Ok then
      { wrote := some (str "tel:" ++ tel_number), spawnedBackground := false
        waitedMs := 0, httpRequest := none, showedUI := false, exitCode := 0 }
    else processTelFallthrough env.prefs tel_number false 0
  else if env.currentExeOk then
    if env.connect2Ok && env.write2Ok then
      { wrote := some (str "tel:" ++ tel_number), spawnedBackground := true
        waitedMs := 1000, httpRequest := none, showedUI := false, exitCode := 0 }
    else processTelFallthrough env.prefs tel_number true 1000
  else processTelFallthrough env.prefs tel_number false 0

/-- The whole `main` tail (main.rs lines 478-601): scan the arguments and run
the tel flow, or show the interactive UI when no `tel:` argument is present. -/
def mainModel (isPrimary : Bool) (args : List Str) (env : MainEnv) : MainResult :=
  match findTelArg args with
  | some tel_number => mainTelFlow isPrimary tel_number env
  | none =>
      { wrote := none, spawnedBackground := false, waitedMs := 0
        httpRequest := none, showedUI := true, exitCode := 0 }

/-! ## Preferences persistence (main.rs lines 798-826) -/

/-- The four fields that `serde` actually serializes for `AppState`
(`phone_number` and `status_message` carry `#[serde(skip)]`). -/
structure PersistedSettings where
  domain : Str
  extension : Str
  key : Str
  auto_answer : Bool
deriving DecidableEq, Repr

/-- The preferences file, abstracting the JSON text to the record it encodes:
absent (no file / read failure), malformed (parse failure), or a stored
record. -/
inductive PrefsFile where
  | absent
  | malformed
  | stored (p : PersistedSettings)
deriving DecidableEq, Repr

/-- `serde_json::to_string(state)` restricted to the serialized fields:
`#[serde(skip)]` omits `phone_number` and `status_message`. -/
def serializeState (s : AppState) : PersistedSettings :=
  { domain := s.domain, extension := s.extension, key := s.key
    auto_answer := s.auto_answer }

/-- `save_preferences` (main.rs lines 798-809): the file content after a
successful write. -/
def save_preferences (s : AppState) : PrefsFile := .stored (serializeState s)

/-- `load_preferences` (main.rs lines 812-826): start from
`AppState::default()` and overwrite only when the file reads and parses;
skipped serde fields come back as `Default::default()` (empty). -/
def load_preferences : PrefsFile → AppState
  | .absent => defaultAppState
  | .malformed => defaultAppState
  | .stored p =>
      { domain := p.domain, extension := p.extension, key := p.key
        auto_answer := p.auto_answer, phone_number := [], status_message := [] }

/-! ## Snapshot semantics of the listener thread (main.rs lines 257-263)

`APP_INITIALIZED` clones the current `AppState` (`let app_state =
data.clone()`, line 259) and moves the clone into the listener thread; later
UI edits and saves mutate the druid `data`, never that clone. -/

/-- The live druid state together with the clone captured by the listener
thread at startup. -/
structure SystemState where
  live : AppState
  snapshot : AppState
deriving DecidableEq, Repr

/-- Events after listener start that touch settings: a UI edit/save replaces
the live state (and possibly the preferences file), nothing else. -/
inductive UIEvent where
  | editSettings (newLive : AppState)
deriving DecidableEq, Repr

/-- Effect of one UI event on the system: only the live state changes. -/
def applyEvent (s : SystemState) : UIEvent → SystemState
  | .editSettings n => { s with live := n }

/-- Effect of a sequence of UI events. -/
def applyEvents (s : SystemState) (evs : List UIEvent) : SystemState :=
  evs.foldl applyEvent s

/-- Listener-thread start (main.rs line 259): the snapshot is the clone of
the live state at that moment. -/
def startListener (live : AppState) : SystemState :=
  { live := live, snapshot := live }

/-- Routing of a forwarded message in a running system: the listener thread
consults only its captured snapshot (main.rs lines 302-318). -/
def listenerRoute (s : SystemState) (message : Str) : ListenerAction :=
  socketListenerHandle s.snapshot message

/-! ## Query-string structure helpers -/

/-- Split a character list at every occurrence of `sep` (the separator is
consumed; empty segments are kept). -/
def splitOnChar (sep : Char) : Str → List Str
  | [] => [[]]
  | c :: cs =>
    if c = sep then [] :: splitOnChar sep cs
    else match splitOnChar sep cs with
      | [] => [[c]]
      | r :: rs => (c :: r) :: rs

/-- Prepend a separator-free run onto the first segment of a split. -/
def consSeg (l : Str) : List Str → List Str
  | [] => [l]
  | r :: rs => (l ++ r) :: rs

theorem splitOnChar_ne_nil (sep : Char) (l : Str) : splitOnChar sep l ≠ [] := by
  induction l with
  | nil => simp [splitOnChar]
  | cons c cs ih =>
      simp only [splitOnChar]
      split
      · simp
      · cases h : splitOnChar sep cs with
        | nil => simp
        | cons r rs => simp [h]

theorem splitOnChar_append (sep : Char) (l x : Str) (h : sep ∉ l) :
    splitOnChar sep (l ++ x) = consSeg l (splitOnChar sep x) := by
  induction l with
  | nil =>
      cases hx : splitOnChar sep x with
      | nil => exact absurd hx (splitOnChar_ne_nil sep x)
      | cons r rs => simp [consSeg, hx]
  | cons c cs ih =>
      have hc : c ≠ sep := fun hcs => h (hcs ▸ List.mem_cons_self c cs)
      have hcs' : sep ∉ cs := fun hm => h (List.mem_cons_of_mem c hm)
      have ihx := ih hcs'
      simp only [List.cons_append, splitOnChar, if_neg hc, ihx]
      cases hx : splitOnChar sep x with
      | nil => exact absurd hx (splitOnChar_ne_nil sep x)
      | cons r rs => simp [consSeg, hx, ihx]

theorem splitOnChar_sep_cons (sep : Char) (x : Str) :
    splitOnChar sep (sep :: x) = [] :: splitOnChar sep x := by
  simp [splitOnChar]

theorem splitOnChar_no_sep (sep : Char) (l : Str) (h : sep ∉ l) :
    splitOnChar sep l = [l] := by
  have := splitOnChar_append sep l [] h
  simpa [splitOnChar, consSeg] using this

/-! ## Shared helper lemmas -/

theorem snapshot_applyEvents (s : SystemState) (evs : List UIEvent) :
    (applyEvents s evs).snapshot = s.snapshot := by
  induction evs generalizing s with
  | nil => rfl
  | cons e es ih =>
      cases e with
      | editSettings n => exact ih { live := n, snapshot := s.snapshot }

theorem tel_head_isPrefixOf (x : Str) :
    (str "tel:").isPrefixOf (str "tel:" ++ x) = true := by
  simp [str, List.isPrefixOf]

theorem telRemainder_tel_append (x : Str) : telRemainder (str "tel:" ++ x) = x := rfl

theorem toLowerStr_tel (x : Str) :
    toLowerStr (str "tel:" ++ x) = str "tel:" ++ toLowerStr x := by
  have h : List.map Char.toLower (str "tel:") = str "tel:" := by decide
  simp only [toLowerStr, List.map_append, h]

/-! ## Claim theorems -/

/-- Claim C3: the instance probe returns Secondary exactly when the connect
and the liveness-probe write both succeed; the stale socket file is removed
exactly when the path exists but the probe did not fully succeed; and whenever
the probe does not fully succeed the role is Primary.  The hypothesis records
that connecting to a Unix-socket path that does not exist always fails. -/
theorem C3_determine_role (env : SocketEnv)
    (hconn : env.connectOk = true → env.pathExists = true) :
    (roleOf env = Role.secondary ↔ (env.connectOk = true ∧ env.writeOk = true)) ∧
    ((try_connect_to_primary env).removedStale = true ↔
      (env.pathExists = true ∧ ¬(env.connectOk = true ∧ env.writeOk = true))) ∧
    (roleOf env = Role.primary ↔ ¬(env.connectOk = true ∧ env.writeOk = true)) := by
  obtain ⟨pe, co, wo⟩ := env
  revert hconn
  cases pe <;> cases co <;> cases wo <;> decide

/-- Witness for C3 at a live primary: path exists, connect and write succeed,
so the probe reports Secondary and removes nothing. -/
theorem C3_determine_role_witness :
    (roleOf ⟨true, true, true⟩ = Role.secondary ↔
      ((true : Bool) = true ∧ (true : Bool) = true)) ∧
    ((try_connect_to_primary ⟨true, true, true⟩).removedStale = true ↔
      ((true : Bool) = true ∧ ¬((true : Bool) = true ∧ (true : Bool) = true))) ∧
    (roleOf ⟨true, true, true⟩ = Role.primary ↔
      ¬((true : Bool) = true ∧ (true : Bool) = true)) :=
  C3_determine_role ⟨true, true, true⟩ (fun _ => rfl)

/-- Claim C6: the listener discards exactly the payloads that do not start
with `tel:` (so `ping-<timestamp>` probes never trigger a call), dispatches a
silent direct call exactly when the payload starts with `tel:` and both domain
and extension of the snapshot are non-empty, and otherwise hands the raw
message to the UI context. -/
theorem C6_listener_routing (snap : AppState) (message t : Str) :
    (socketListenerHandle snap message = ListenerAction.discard ↔
      (str "tel:").isPrefixOf message = false) ∧
    (socketListenerHandle snap message =
        ListenerAction.directCall (buildCallUrl snap.domain snap.extension snap.key
          (cleanNumber (telRemainder message)) snap.auto_answer) ↔
      ((str "tel:").isPrefixOf message = true ∧
        snap.domain.isEmpty = false ∧ snap.extension.isEmpty = false)) ∧
    (socketListenerHandle snap message = ListenerAction.sendToUI message ↔
      ((str "tel:").isPrefixOf message = true ∧
        (snap.domain.isEmpty = true ∨ snap.extension.isEmpty = true))) ∧
    socketListenerHandle snap (str "ping-" ++ t) = ListenerAction.discard := by
  have hping : (str "tel:").isPrefixOf (str "ping-" ++ t) = false := by
    have h1 : (('t' : Char) == 'p') = false := by decide
    simp [str, List.isPrefixOf, h1]
  cases hp : (str "tel:").isPrefixOf message <;>
    cases hd : snap.domain.isEmpty <;>
      cases he : snap.extension.isEmpty <;>
        simp [socketListenerHandle, make_direct_call, hp, hd, he, hping]

/-- Claim C7: normalization of a `tel:` URI drops exactly the 4-character
prefix and removes exactly the characters `-`, space, `(`, `)` from the
remainder, leaving every other character (digits, a leading `+`, anything
else) unchanged and in order; `tel:+1 (555) 123-4567` yields `+15551234567`. -/
theorem C7_normalize (rest : Str) :
    telRemainder (str "tel:" ++ rest) = rest ∧
    cleanNumber rest =
      rest.filter (fun c => !(c == '-' || c == ' ' || c == '(' || c == ')')) ∧
    cleanNumber (telRemainder (str "tel:+1 (555) 123-4567")) = str "+15551234567" := by
  refine ⟨rfl, ?_, by decide⟩
  simp only [cleanNumber, removeChar, List.filter_filter]
  apply List.filter_congr
  intro c _
  cases h1 : c == '-' <;> cases h2 : c == ' ' <;>
    cases h3 : c == '(' <;> cases h4 : c == ')' <;>
      simp [h1, h2, h3, h4]

/-- Claim C9: a successful save followed by a load restores domain, extension,
key and auto_answer; the transient fields come back empty because they are
never serialized; and loading an absent or malformed preferences file yields
the default (all-empty) settings rather than an error. -/
theorem C9_preferences_roundtrip (s : AppState) :
    (load_preferences (save_preferences s)).domain = s.domain ∧
    (load_preferences (save_preferences s)).extension = s.extension ∧
    (load_preferences (save_preferences s)).key = s.key ∧
    (load_preferences (save_preferences s)).auto_answer = s.auto_answer ∧
    (load_preferences (save_preferences s)).phone_number = [] ∧
    (load_preferences (save_preferences s)).status_message = [] ∧
    load_preferences PrefsFile.absent = defaultAppState ∧
    load_preferences PrefsFile.malformed = defaultAppState := by
  simp [load_preferences, save_preferences, serializeState]

/-- Claim C10: the listener thread routes every forwarded message using the
snapshot of the application state captured when the thread started; any
number of later settings edits/saves (which replace only the live state)
leaves both the routing decision and the snapshot itself unchanged. -/
theorem C10_snapshot_routing (init : AppState) (evs : List UIEvent) (message : Str) :
    listenerRoute (applyEvents (startListener init) evs) message =
      socketListenerHandle init message ∧
    (applyEvents (startListener init) evs).snapshot = init := by
  have h := snapshot_applyEvents (startListener init) evs
  simp only [startListener] at h
  refine ⟨?_, h⟩
  simp only [listenerRoute, startListener, h]

set_option maxRecDepth 4000 in
/-- Claim C2 counterexample: with domain `d` and extension `e` configured, the
forwarded payload `tel:--` cleans to the empty phone number, yet the silent
direct-call path still issues an HTTP request (the listener never checks the
cleaned number for emptiness). -/
theorem C2_counterexample :
    cleanNumber (telRemainder (str "tel:--")) = [] ∧
    socketListenerHandle
        { domain := str "d", extension := str "e", key := [], auto_answer := false
          phone_number := [], status_message := [] }
        (str "tel:--") =
      ListenerAction.directCall (buildCallUrl (str "d") (str "e") [] [] false) := by
  refine ⟨by decide, ?_⟩
  have hp : (str "tel:").isPrefixOf (str "tel:--") = true := by decide
  simp [socketListenerHandle, make_direct_call, hp, str]
  decide

/-- Claim C2 as amended: on the interactive `MAKE_CALL` path a request is
issued exactly when domain, extension and phone number are all non-empty, and
when it is not issued the status message is the fixed error string; on the
silent paths (socket listener and startup fall-through) only domain and
extension are checked — the phone number, even empty, is passed straight to
the dispatcher. -/
theorem C2_dispatch_guard (data prefs : AppState) (message tel : Str)
    (sp : Bool) (w : Nat) :
    ((makeCallCmd data).httpRequest = none ↔
      (data.domain.isEmpty = true ∨ data.extension.isEmpty = true ∨
        data.phone_number.isEmpty = true)) ∧
    ((makeCallCmd data).httpRequest = none ↔
      (makeCallCmd data).state.status_message =
        str "Error: Missing domain, extension or phone number") ∧
    ((∃ url, socketListenerHandle data message = ListenerAction.directCall url) ↔
      ((str "tel:").isPrefixOf message = true ∧ data.domain.isEmpty = false ∧
        data.extension.isEmpty = false)) ∧
    ((processTelFallthrough prefs tel sp w).httpRequest = none ↔
      (prefs.domain.isEmpty = true ∨ prefs.extension.isEmpty = true)) := by
  refine ⟨?_, ?_, ?_, ?_⟩
  · cases hd : data.domain.isEmpty <;> cases he : data.extension.isEmpty <;>
      cases hp : data.phone_number.isEmpty <;>
        simp [makeCallCmd, hd, he, hp]
  · cases hd : data.domain.isEmpty <;> cases he : data.extension.isEmpty <;>
      cases hp : data.phone_number.isEmpty <;>
        simp [makeCallCmd, hd, he, hp, str]
  · cases hp : (str "tel:").isPrefixOf message <;> cases hd : data.domain.isEmpty <;>
      cases he : data.extension.isEmpty <;>
        simp [socketListenerHandle, make_direct_call, hp, hd, he]
  · cases hd : prefs.domain.isEmpty <;> cases he : prefs.extension.isEmpty <;>
      simp [processTelFallthrough, make_direct_call, hd, he]

/-- Claim C8: response handling is an exhaustive, exclusive three-way
classification.  A 2xx status is Success and the status message contains the
dialed number; any other status is HttpError with the code digits in the
text; a transport failure is NetworkError with the error text in the message;
and the resulting message is what lands in the session state's
`status_message`. -/
theorem C8_dispatch_outcomes (phone e : Str) (s2 s5 status : Nat)
    (r : HttpResult) (st : AppState)
    (h2 : statusIsSuccess s2 = true) (h5 : statusIsSuccess s5 = false) :
    (statusIsSuccess status = true ↔ (200 ≤ status ∧ status < 300)) ∧
    (classifyResult (HttpResult.response status) = CallOutcome.success ∨
      classifyResult (HttpResult.response status) = CallOutcome.httpError status) ∧
    classifyResult (HttpResult.response s2) = CallOutcome.success ∧
    callResultMessage phone (HttpResult.response s2) =
      str "Call initialized to " ++ phone ∧
    List.IsInfix phone (callResultMessage phone (HttpResult.response s2)) ∧
    classifyResult (HttpResult.response s5) = CallOutcome.httpError s5 ∧
    callResultMessage phone (HttpResult.response s5) =
      str "Error: HTTP status " ++ natDigits s5 ∧
    List.IsInfix (natDigits s5) (callResultMessage phone (HttpResult.response s5)) ∧
    classifyResult (HttpResult.transportError e) = CallOutcome.networkError e ∧
    callResultMessage phone (HttpResult.transportError e) = str "Error: " ++ e ∧
    List.IsInfix e (callResultMessage phone (HttpResult.transportError e)) ∧
    (applyCallResult st (callResultMessage phone r)).status_message =
      callResultMessage phone r := by
  refine ⟨?_, ?_, ?_, ?_, ?_, ?_, ?_, ?_, ?_, ?_, ?_, rfl⟩
  · simp [statusIsSuccess, Bool.and_eq_true, decide_eq_true_eq]
  · by_cases h : statusIsSuccess status = true
    · exact Or.inl (by simp [classifyResult, h])
    · exact Or.inr (by simp [classifyResult, Bool.of_not_eq_true h])
  · simp [classifyResult, h2]
  · simp [callResultMessage, h2]
  · exact ⟨str "Call initialized to ", [], by simp [callResultMessage, h2]⟩
  · simp [classifyResult, h5]
  · simp [callResultMessage, h5]
  · exact ⟨str "Error: HTTP status ", [], by simp [callResultMessage, h5]⟩
  · rfl
  · rfl
  · exact ⟨str "Error: ", [], by simp [callResultMessage]⟩

/-- Witness for C8 at concrete outcomes: status 200 (success), status 500
(HTTP error), and a refused connection (network error), with the message
delivered into a default session state. -/
theorem C8_dispatch_outcomes_witness :
    (statusIsSuccess 204 = true ↔ (200 ≤ 204 ∧ 204 < 300)) ∧
    (classifyResult (HttpResult.response 204) = CallOutcome.success ∨
      classifyResult (HttpResult.response 204) = CallOutcome.httpError 204) ∧
    classifyResult (HttpResult.response 200) = CallOutcome.success ∧
    callResultMessage (str "5551234567") (HttpResult.response 200) =
      str "Call initialized to " ++ str "5551234567" ∧
    List.IsInfix (str "5551234567")
      (callResultMessage (str "5551234567") (HttpResult.response 200)) ∧
    classifyResult (HttpResult.response 500) = CallOutcome.httpError 500 ∧
    callResultMessage (str "5551234567") (HttpResult.response 500) =
      str "Error: HTTP status " ++ natDigits 500 ∧
    List.IsInfix (natDigits 500)
      (callResultMessage (str "5551234567") (HttpResult.response 500)) ∧
    classifyResult (HttpResult.transportError (str "connection refused")) =
      CallOutcome.networkError (str "connection refused") ∧
    callResultMessage (str "5551234567") (HttpResult.transportError
      (str "connection refused")) = str "Error: " ++ str "connection refused" ∧
    List.IsInfix (str "connection refused")
      (callResultMessage (str "5551234567")
        (HttpResult.transportError (str "connection refused"))) ∧
    (applyCallResult defaultAppState
        (callResultMessage (str "5551234567") (HttpResult.response 200))).status_message =
      callResultMessage (str "5551234567") (HttpResult.response 200) :=
  C8_dispatch_outcomes (str "5551234567") (str "connection refused") 200 500 204
    (HttpResult.response 200) defaultAppState (by decide) (by decide)

set_option maxRecDepth 4000 in
/-- Claim C4 counterexample: a Secondary started with argument `tel:555-1234`
and a reachable primary writes the bytes `tel:5551234` — the cleaned number,
not the raw URI `tel:555-1234` that the claim asserts. -/
theorem C4_counterexample :
    (mainModel false [str "tel:555-1234"]
        { connect1Ok := true, write1Ok := true, currentExeOk := true
          connect2Ok := true, write2Ok := true, prefs := defaultAppState }).wrote =
      some (str "tel:5551234") ∧
    (some (str "tel:5551234") : Option Str) ≠ some (str "tel:555-1234") := by
  decide

/-- Claim C4 as amended: a Secondary with a `tel:` argument and a reachable
primary socket writes `tel:` followed by the cleaned (normalized) number —
which for an argument like `tel:5551234567` is byte-for-byte the original
URI — issues no HTTP request itself, shows no UI, spawns nothing, and exits
with code 0. -/
theorem C4_secondary_forwarding (rest : Str) (env : MainEnv)
    (h1 : env.connect1Ok = true) (h2 : env.write1Ok = true) :
    findTelArg [str "tel:" ++ rest] = some (cleanNumber rest) ∧
    mainModel false [str "tel:" ++ rest] env =
      { wrote := some (str "tel:" ++ cleanNumber rest), spawnedBackground := false
        waitedMs := 0, httpRequest := none, showedUI := false, exitCode := 0 } := by
  have hfind : findTelArg [str "tel:" ++ rest] = some (cleanNumber rest) := by
    simp [findTelArg, toLowerStr_tel, tel_head_isPrefixOf, telRemainder_tel_append]
  refine ⟨hfind, ?_⟩
  simp [mainModel, hfind, mainTelFlow, h1, h2]

/-- Witness for C4: argument `tel:5551234567` with a reachable primary; the
bytes written are exactly `tel:5551234567`. -/
theorem C4_secondary_forwarding_witness :
    (findTelArg [str "tel:" ++ str "5551234567"] =
      some (cleanNumber (str "5551234567")) ∧
    mainModel false [str "tel:" ++ str "5551234567"]
        { connect1Ok := true, write1Ok := true, currentExeOk := false
          connect2Ok := false, write2Ok := false, prefs := defaultAppState } =
      { wrote := some (str "tel:" ++ cleanNumber (str "5551234567"))
        spawnedBackground := false, waitedMs := 0, httpRequest := none
        showedUI := false, exitCode := 0 }) ∧
    str "tel:" ++ cleanNumber (str "5551234567") = str "tel:5551234567" :=
  ⟨C4_secondary_forwarding (str "5551234567")
      { connect1Ok := true, write1Ok := true, currentExeOk := false
        connect2Ok := false, write2Ok := false, prefs := defaultAppState }
      rfl rfl,
    by decide⟩

set_option maxRecDepth 8000 in
/-- Claim C5 counterexample: a Secondary whose first forward connect fails
spawns a background instance, waits, retries, and when the retry also fails
with configured preferences it silently dispatches the call and exits — the
interactive UI is not shown, contrary to the claim. -/
theorem C5_counterexample :
    mainTelFlow false (str "5551234567")
        { connect1Ok := false, write1Ok := false, currentExeOk := true
          connect2Ok := false, write2Ok := false
          prefs := { domain := str "pbx.example.com", extension := str "100"
                     key := str "abc", auto_answer := true
                     phone_number := [], status_message := [] } } =
      { wrote := none, spawnedBackground := true, waitedMs := 1000
        httpRequest := some (buildCallUrl (str "pbx.example.com") (str "100")
          (str "abc") (str "5551234567") true)
        showedUI := false, exitCode := 0 } := by
  decide

/-- Claim C5 as amended: when the first forward connect fails, the Secondary
spawns a background instance of itself, waits 1000 ms, and retries the
forward exactly once; if the retry succeeds it forwards and exits, and if it
fails it falls through and continues as a Primary would: with configured
settings it silently dispatches the call and exits, and only with incomplete
settings does it show the interactive UI. -/
theorem C5_spawn_and_retry (tel : Str) (env : MainEnv)
    (h1 : env.connect1Ok = false) (h2 : env.currentExeOk = true) :
    mainTelFlow false tel env =
      (if env.connect2Ok && env.write2Ok then
        { wrote := some (str "tel:" ++ tel), spawnedBackground := true
          waitedMs := 1000, httpRequest := none, showedUI := false, exitCode := 0 }
      else if !env.prefs.domain.isEmpty && !env.prefs.extension.isEmpty then
        { wrote := none, spawnedBackground := true, waitedMs := 1000
          httpRequest := some (buildCallUrl env.prefs.domain env.prefs.extension
            env.prefs.key tel env.prefs.auto_answer)
          showedUI := false, exitCode := 0 }
      else
        { wrote := none, spawnedBackground := true, waitedMs := 1000
          httpRequest := none, showedUI := true, exitCode := 0 }) := by
  simp only [mainTelFlow, h1, h2, if_false, if_true, Bool.false_eq_true, ite_false,
    processTelFallthrough, make_direct_call]

/-- Witness for C5: first connect refused, retry succeeds — the payload is
forwarded after the spawn-and-wait. -/
theorem C5_spawn_and_retry_witness :
    mainTelFlow false (str "5551234567")
        { connect1Ok := false, write1Ok := false, currentExeOk := true
          connect2Ok := true, write2Ok := true, prefs := defaultAppState } =
      (if true && true then
        { wrote := some (str "tel:" ++ str "5551234567"), spawnedBackground := true
          waitedMs := 1000, httpRequest := none, showedUI := false, exitCode := 0 }
      else if !(defaultAppState.domain.isEmpty) && !(defaultAppState.extension.isEmpty) then
        { wrote := none, spawnedBackground := true, waitedMs := 1000
          httpRequest := some (buildCallUrl defaultAppState.domain defaultAppState.extension
            defaultAppState.key (str "5551234567") defaultAppState.auto_answer)
          showedUI := false, exitCode := 0 }
      else
        { wrote := none, spawnedBackground := true, waitedMs := 1000
          httpRequest := none, showedUI := true, exitCode := 0 }) :=
  C5_spawn_and_retry (str "5551234567")
    { connect1Ok := false, write1Ok := false, currentExeOk := true
      connect2Ok := true, write2Ok := true, prefs := defaultAppState } rfl rfl

set_option maxRecDepth 100000 in
/-- Claim C1 counterexample: for the example inputs the query string does not
assign `dest=100`; the format arguments put the extension in `src` and the
phone number in `dest`, so the segments are `src=100` and `dest=5551234567`. -/
theorem C1_counterexample :
    (str "dest=100") ∉
      splitOnChar '&' (buildCallUrl (str "pbx.example.com") (str "100") (str "abc")
        (str "5551234567") true) ∧
    (str "src=100") ∈
      splitOnChar '&' (buildCallUrl (str "pbx.example.com") (str "100") (str "abc")
        (str "5551234567") true) ∧
    (str "dest=5551234567") ∈
      splitOnChar '&' (buildCallUrl (str "pbx.example.com") (str "100") (str "abc")
        (str "5551234567") true) := by
  decide

/-- Claim C1 as amended: whenever domain, extension, key and phone number are
free of `&`, the built URL splits at `&` into exactly the template segments —
with `src` set to the extension and `dest` set to the normalized phone number
(the claim had these two swapped) — and `https://` is prefixed exactly when
the domain starts with neither `http://` nor `https://`. -/
theorem C1_url_structure (d e k p : Str) (a : Bool)
    (hd : '&' ∉ d) (he : '&' ∉ e) (hk : '&' ∉ k) (hp : '&' ∉ p) :
    splitOnChar '&' (buildCallUrl d e k p a) =
      [domainWithScheme d ++ (str "/app/click_to_call/click_to_call.php?src_cid_name=" ++ p),
       str "src_cid_number=" ++ p,
       str "dest_cid_name=" ++ p,
       str "dest_cid_number=" ++ p,
       str "src=" ++ e,
       str "dest=" ++ p,
       str "auto_answer=" ++ boolStr a,
       str "rec=",
       str "ringback=us-ring",
       str "key=" ++ k] ∧
    (domainWithScheme d = str "https://" ++ d ↔
      ((str "http://").isPrefixOf d = false ∧ (str "https://").isPrefixOf d = false)) ∧
    (domainWithScheme d = d ∨ domainWithScheme d = str "https://" ++ d) := by
  have hDW : '&' ∉ domainWithScheme d := by
    simp only [domainWithScheme]
    split
    · exact hd
    · simp only [List.mem_append, not_or]
      exact ⟨by decide, hd⟩
  have hba : '&' ∉ boolStr a := by cases a <;> decide
  refine ⟨?_, ?_, ?_⟩
  · have c2 : ∀ x : Str, str "&src_cid_number=" ++ x =
        '&' :: (str "src_cid_number=" ++ x) := fun _ => rfl
    have c3 : ∀ x : Str, str "&dest_cid_name=" ++ x =
        '&' :: (str "dest_cid_name=" ++ x) := fun _ => rfl
    have c4 : ∀ x : Str, str "&dest_cid_number=" ++ x =
        '&' :: (str "dest_cid_number=" ++ x) := fun _ => rfl
    have c5 : ∀ x : Str, str "&src=" ++ x = '&' :: (str "src=" ++ x) := fun _ => rfl
    have c6 : ∀ x : Str, str "&dest=" ++ x = '&' :: (str "dest=" ++ x) := fun _ => rfl
    have c7 : ∀ x : Str, str "&auto_answer=" ++ x =
        '&' :: (str "auto_answer=" ++ x) := fun _ => rfl
    have c8 : ∀ x : Str, str "&rec=&ringback=us-ring&key=" ++ x =
        '&' :: (str "rec=" ++ ('&' :: (str "ringback=us-ring" ++
          ('&' :: (str "key=" ++ x))))) := fun _ => rfl
    unfold buildCallUrl
    rw [c2, c3, c4, c5, c6, c7, c8]
    rw [splitOnChar_append _ _ _ hDW]
    rw [splitOnChar_append _ _ _
      (by decide : ('&' : Char) ∉ str "/app/click_to_call/click_to_call.php?src_cid_name=")]
    rw [splitOnChar_append _ _ _ hp, splitOnChar_sep_cons]
    rw [splitOnChar_append _ _ _ (by decide : ('&' : Char) ∉ str "src_cid_number=")]
    rw [splitOnChar_append _ _ _ hp, splitOnChar_sep_cons]
    rw [splitOnChar_append _ _ _ (by decide : ('&' : Char) ∉ str "dest_cid_name=")]
    rw [splitOnChar_append _ _ _ hp, splitOnChar_sep_cons]
    rw [splitOnChar_append _ _ _ (by decide : ('&' : Char) ∉ str "dest_cid_number=")]
    rw [splitOnChar_append _ _ _ hp, splitOnChar_sep_cons]
    rw [splitOnChar_append _ _ _ (by decide : ('&' : Char) ∉ str "src=")]
    rw [splitOnChar_append _ _ _ he, splitOnChar_sep_cons]
    rw [splitOnChar_append _ _ _ (by decide : ('&' : Char) ∉ str "dest=")]
    rw [splitOnChar_append _ _ _ hp, splitOnChar_sep_cons]
    rw [splitOnChar_append _ _ _ (by decide : ('&' : Char) ∉ str "auto_answer=")]
    rw [splitOnChar_append _ _ _ hba, splitOnChar_sep_cons]
    rw [splitOnChar_append _ _ _ (by decide : ('&' : Char) ∉ str "rec=")]
    rw [splitOnChar_sep_cons]
    rw [splitOnChar_append _ _ _ (by decide : ('&' : Char) ∉ str "ringback=us-ring")]
    rw [splitOnChar_sep_cons]
    rw [splitOnChar_append _ _ _ (by decide : ('&' : Char) ∉ str "key=")]
    rw [splitOnChar_no_sep _ _ hk]
    simp [consSeg]
  · constructor
    · intro hEq
      cases hhttp : (str "http://").isPrefixOf d <;>
        cases hhttps : (str "https://").isPrefixOf d
      · exact ⟨rfl, rfl⟩
      all_goals
        exfalso
        have hd' : domainWithScheme d = d := by simp [domainWithScheme, hhttp, hhttps]
        rw [hd'] at hEq
        have hlen := congrArg List.length hEq
        rw [List.length_append] at hlen
        have h8 : (str "https://").length = 8 := by decide
        rw [h8] at hlen
        omega
    · intro h
      simp [domainWithScheme, h.1, h.2]
  · cases hcond : ((str "http://").isPrefixOf d || (str "https://").isPrefixOf d)
    · exact Or.inr (by simp [domainWithScheme, hcond])
    · exact Or.inl (by simp [domainWithScheme, hcond])

set_option maxRecDepth 100000 in
/-- Witness for C1 at the example inputs: the query segments are exactly the
template values (with `src=100` and `dest=5551234567`), and the whole URL is
the expected concrete string targeting
`https://pbx.example.com/app/click_to_call/click_to_call.php`. -/
theorem C1_url_structure_witness :
    splitOnChar '&' (buildCallUrl (str "pbx.example.com") (str "100") (str "abc")
        (str "5551234567") true) =
      [domainWithScheme (str "pbx.example.com") ++
        (str "/app/click_to_call/click_to_call.php?src_cid_name=" ++ str "5551234567"),
       str "src_cid_number=" ++ str "5551234567",
       str "dest_cid_name=" ++ str "5551234567",
       str "dest_cid_number=" ++ str "5551234567",
       str "src=" ++ str "100",
       str "dest=" ++ str "5551234567",
       str "auto_answer=" ++ boolStr true,
       str "rec=",
       str "ringback=us-ring",
       str "key=" ++ str "abc"] ∧
    buildCallUrl (str "pbx.example.com") (str "100") (str "abc") (str "5551234567") true =
      str "https://pbx.example.com/app/click_to_call/click_to_call.php?src_cid_name=5551234567&src_cid_number=5551234567&dest_cid_name=5551234567&dest_cid_number=5551234567&src=100&dest=5551234567&auto_answer=true&rec=&ringback=us-ring&key=abc" :=
  ⟨(C1_url_structure (str "pbx.example.com") (str "100") (str "abc") (str "5551234567")
      true (by decide) (by decide) (by decide) (by decide)).1,
    by decide⟩

end ClickToCall
